import Mathlib

/-!
Shallow embedding of the telegram-anti-spam moderation core:
the database layer (`db_manager.py`), the daily-quota rate limiter
(`rate_limiter.py`), the spam detector wrapper (`spam_detector.py`),
the punishment engine (`punishment_manager.py`) and the message
orchestrator (`handlers.py`).  Timestamps are natural numbers
(seconds); calendar days are natural numbers (day index); LLM scores
are rationals.  External I/O (the OpenAI call, the Telegram platform
calls) is modelled by explicit outcome/fault oracles passed as
arguments, with exceptions represented by `Exc` and Python's
`try/except TelegramError` blocks translated to case analysis on the
oracle.
-/

namespace AntiSpam

/-- Kinds of exception a platform (Telegram) call can raise: a
`TelegramError` (the only class the code catches) or any other
exception class. -/
inductive Exc where
  | telegramError
  | otherError
deriving DecidableEq, Repr

/-- Row of the `violations` table (autoincrement id omitted). -/
structure Violation where
  user_id : Int
  username : Option String
  violation_count : Nat
  last_violation_time : Nat
  reset_at : Nat
deriving DecidableEq, Repr

/-- Row of the `spam_logs` audit table (id and created_at omitted). -/
structure SpamLogEntry where
  user_id : Int
  username : Option String
  message_text : String
  llm_score : Rat
  action : String
deriving DecidableEq, Repr

/-- Persistent database state: the three tables managed by
`DatabaseManager`.  `api_usage` is an association list keyed by day
(unique key, mirroring the UNIQUE constraint on `date`). -/
structure DB where
  violations : List Violation
  spam_logs : List SpamLogEntry
  api_usage : List (Nat × Nat)
deriving DecidableEq, Repr

/-- Retention window for violation records: `timedelta(days=30)` in
seconds. -/
def retentionWindow : Nat := 30 * 86400

/-- Embeds `DatabaseManager._cleanup_expired_violations`: DELETE FROM
violations WHERE reset_at < now. -/
def DB.cleanup_expired_violations (db : DB) (now : Nat) : DB :=
  { db with violations := db.violations.filter (fun v => !(decide (v.reset_at < now))) }

/-- Embeds `DatabaseManager.get_violation`: run the lazy expiry sweep,
then SELECT the first row for the user. Returns the database after the
sweep together with the row found, if any. -/
def DB.get_violation (db : DB) (now : Nat) (uid : Int) : DB × Option Violation :=
  let db1 := db.cleanup_expired_violations now
  (db1, db1.violations.find? (fun v => v.user_id == uid))

/-- Embeds `DatabaseManager.increment_violation`: look the user up
(with lazy expiry), then either UPDATE the existing row with count+1
and a fresh expiry, or INSERT a fresh row with count 1.  Returns the
new database and the resulting count. -/
def DB.increment_violation (db : DB) (now : Nat) (uid : Int)
    (username : Option String) : DB × Nat :=
  let (db1, viol) := db.get_violation now uid
  let reset_at := now + retentionWindow
  match viol with
  | some v =>
      let new_count := v.violation_count + 1
      ({ db1 with violations := db1.violations.map (fun w =>
          if w.user_id == uid then
            { w with violation_count := new_count, last_violation_time := now,
                     reset_at := reset_at, username := username }
          else w) },
       new_count)
  | none =>
      ({ db1 with violations :=
          db1.violations ++ [⟨uid, username, 1, now, now + retentionWindow⟩] },
       1)

/-- Row update applied by `increment_violation` to an existing
record: count + 1, fresh last-violation time, expiry extended to
now + retention, username refreshed. -/
def bumpRow (v : Violation) (now : Nat) (name : Option String) : Violation :=
  { v with
      violation_count := v.violation_count + 1
      last_violation_time := now
      reset_at := now + retentionWindow
      username := name }

/-- Embeds `DatabaseManager.reset_violations`: DELETE FROM violations
WHERE user_id = uid. -/
def DB.reset_violations (db : DB) (uid : Int) : DB :=
  { db with violations := db.violations.filter (fun v => !(v.user_id == uid)) }

/-- Embeds `DatabaseManager.log_spam`: append one row to the
`spam_logs` audit table. -/
def DB.log_spam (db : DB) (uid : Int) (username : Option String)
    (message_text : String) (llm_score : Rat) (action : String) : DB :=
  { db with spam_logs := db.spam_logs ++ [⟨uid, username, message_text, llm_score, action⟩] }

/-- Embeds `DatabaseManager.get_api_usage`: SELECT count for the given
day, defaulting to 0 when no row exists. -/
def DB.get_api_usage (db : DB) (d : Nat) : Nat :=
  match db.api_usage.find? (fun p => p.1 == d) with
  | some p => p.2
  | none => 0

/-- Embeds `DatabaseManager.update_api_usage`: INSERT the (day, count)
row, or on conflict with the unique day key overwrite the count. -/
def DB.update_api_usage (db : DB) (d : Nat) (c : Nat) : DB :=
  if db.api_usage.any (fun p => p.1 == d) then
    { db with api_usage := db.api_usage.map (fun p => if p.1 == d then (d, c) else p) }
  else
    { db with api_usage := db.api_usage ++ [(d, c)] }

/-- In-memory state of `RateLimiter`: the configured daily limit, the
cached calendar day, the cached count for that day, and the lazy
initialization flag. -/
structure RateLimiter where
  daily_limit : Nat
  today : Nat
  count : Nat
  initialized : Bool
deriving DecidableEq, Repr

/-- Embeds `RateLimiter._refresh_if_new_day`: when the wall-clock day
`d` differs from the cached day, adopt `d` and reload its persisted
count. -/
def RateLimiter.refresh_if_new_day (rl : RateLimiter) (db : DB) (d : Nat) : RateLimiter :=
  if d ≠ rl.today then { rl with today := d, count := db.get_api_usage d }
  else rl

/-- Embeds `RateLimiter.initialize`: refresh for the current day and
mark the limiter initialized. -/
def RateLimiter.initLimiter (rl : RateLimiter) (db : DB) (d : Nat) : RateLimiter :=
  { rl.refresh_if_new_day db d with initialized := true }

/-- Embeds the `if not self._initialized: await self.initialize()`
guard that opens every public RateLimiter method. -/
def RateLimiter.ensure_init (rl : RateLimiter) (db : DB) (d : Nat) : RateLimiter :=
  if rl.initialized then rl else rl.initLimiter db d

/-- Embeds `RateLimiter.can_call_api`: lazy init, day-rollover
refresh, then report whether the cached count is below the daily
limit. -/
def RateLimiter.can_call_api (rl : RateLimiter) (db : DB) (d : Nat) : RateLimiter × Bool :=
  let rl1 := rl.ensure_init db d
  let rl2 := rl1.refresh_if_new_day db d
  (rl2, decide (rl2.count < rl2.daily_limit))

/-- Embeds `RateLimiter.increment`: lazy init, then bump the cached
count and persist it under the cached day.  Note: unlike the read
accessors, this method performs no day-rollover refresh. -/
def RateLimiter.increment (rl : RateLimiter) (db : DB) (d : Nat) : RateLimiter × DB :=
  let rl1 := rl.ensure_init db d
  let rl2 := { rl1 with count := rl1.count + 1 }
  (rl2, db.update_api_usage rl2.today rl2.count)

/-- Embeds `RateLimiter.get_remaining`: lazy init, day-rollover
refresh, then `max(0, daily_limit - count)` in integer arithmetic. -/
def RateLimiter.get_remaining (rl : RateLimiter) (db : DB) (d : Nat) : RateLimiter × Int :=
  let rl1 := rl.ensure_init db d
  let rl2 := rl1.refresh_if_new_day db d
  (rl2, max 0 ((rl2.daily_limit : Int) - (rl2.count : Int)))

/-- Embeds `RateLimiter.get_usage`: lazy init, day-rollover refresh,
then report (current count, daily limit). -/
def RateLimiter.get_usage (rl : RateLimiter) (db : DB) (d : Nat) : RateLimiter × (Nat × Nat) :=
  let rl1 := rl.ensure_init db d
  let rl2 := rl1.refresh_if_new_day db d
  (rl2, (rl2.count, rl2.daily_limit))

/-- Outcome of one classification attempt inside
`SpamDetector.check_message`'s try block, as seen from the code's
failure-handling structure: either the remote call returned and the
JSON parsed (`ok`), or it returned but `_parse_response` hit a
parse/field error (caught there, yielding score 0), or an exception
was raised before the remote call (prompt construction), by the
remote call itself, or after it outside `_parse_response`'s caught
classes. -/
inductive ClassifierOutcome where
  | ok (score : Rat) (reasoning : String)
  | parseFail
  | failBeforeCall
  | failDuringCall
  | failAfterCall
deriving DecidableEq, Repr

/-- Whether the outcome is a Classifier failure of any kind. -/
def ClassifierOutcome.isFailure : ClassifierOutcome → Bool
  | .ok _ _ => false
  | _ => true

/-- Whether the outcome is an exception raised before the remote
service was reached. -/
def ClassifierOutcome.isLocalPreCallFailure : ClassifierOutcome → Bool
  | .failBeforeCall => true
  | _ => false

/-- Score clamping in `SpamDetector._parse_response`:
`max(0.0, min(10.0, score))`. -/
def clampScore (s : Rat) : Rat := max 0 (min 10 s)

/-- Embeds `SpamDetector.check_message` for a given configured
threshold: every exception inside the try block is caught by the outer
`except Exception`, returning `(False, 0.0, errmsg)`; a parse failure
is caught inside `_parse_response`, returning score 0, after which
`is_spam = score >= threshold` is still computed.  The function is
total: `check_message` never raises. -/
def check_message (threshold : Rat) (o : ClassifierOutcome) : Bool × Rat × String :=
  match o with
  | .ok s r =>
      let s1 := clampScore s
      (decide (threshold ≤ s1), s1, r)
  | .parseFail => (decide (threshold ≤ (0 : Rat)), 0, "parse-error-default")
  | .failBeforeCall => (false, 0, "detect-error")
  | .failDuringCall => (false, 0, "detect-error")
  | .failAfterCall => (false, 0, "detect-error")

/-- Fault oracle for the Telegram platform calls made by
`PunishmentManager` while handling one spam message: for each call,
`none` means it succeeds, `some e` means it raises exception kind
`e`. -/
structure AdapterFaults where
  deleteMessage : Option Exc
  warnNotice : Option Exc
  kickMember : Option Exc
  kickNotice : Option Exc
  banMember : Option Exc
  banNotice : Option Exc
deriving DecidableEq, Repr

/-- All faults the oracle injects are `TelegramError`s (the platform
error class), i.e. none is a foreign exception. -/
def AdapterFaults.onlyTelegram (f : AdapterFaults) : Prop :=
  f.deleteMessage ≠ some .otherError ∧ f.warnNotice ≠ some .otherError ∧
  f.kickMember ≠ some .otherError ∧ f.kickNotice ≠ some .otherError ∧
  f.banMember ≠ some .otherError ∧ f.banNotice ≠ some .otherError

instance (f : AdapterFaults) : Decidable f.onlyTelegram := by
  unfold AdapterFaults.onlyTelegram; infer_instance

/-- Embeds `PunishmentManager._warn_user`: `bot.send_message` inside
`try/except TelegramError`; a TelegramError is swallowed, any other
exception propagates; always returns the string "warning" when no
exception escapes. -/
def warn_user (f : AdapterFaults) : Except Exc String :=
  match f.warnNotice with
  | some .otherError => .error .otherError
  | _ => .ok "warning"

/-- Embeds `PunishmentManager._kick_user`: `unban_chat_member` then a
nested best-effort notice, with both the inner and the outer handler
catching only `TelegramError`.  When the kick call raises a
TelegramError the notice is skipped; any non-Telegram exception
escapes both handlers. -/
def kick_user (f : AdapterFaults) : Except Exc String :=
  match f.kickMember with
  | some .otherError => .error .otherError
  | some .telegramError => .ok "kick"
  | none =>
      match f.kickNotice with
      | some .otherError => .error .otherError
      | _ => .ok "kick"

/-- Embeds `PunishmentManager._ban_user`: `ban_chat_member` then a
nested best-effort notice, same exception structure as the kick
path. -/
def ban_user (f : AdapterFaults) : Except Exc String :=
  match f.banMember with
  | some .otherError => .error .otherError
  | some .telegramError => .ok "ban"
  | none =>
      match f.banNotice with
      | some .otherError => .error .otherError
      | _ => .ok "ban"

/-- Punishment tier names, following the spec's glossary for the
three branches of `handle_spam`'s dispatch. -/
inductive Tier where
  | warn
  | kick
  | ban
deriving DecidableEq, Repr

/-- Embeds the tier selection in `handle_spam`:
`if violation_count == 1` warn, `elif violation_count == 2` kick,
`else` (covering every other count) ban. -/
def tierOf (violation_count : Nat) : Tier :=
  if violation_count == 1 then .warn
  else if violation_count == 2 then .kick
  else .ban

/-- Dispatches the tier-specific handler, as the if/elif/else in
`handle_spam` does. -/
def dispatch_action (violation_count : Nat) (f : AdapterFaults) : Except Exc String :=
  match tierOf violation_count with
  | .warn => warn_user f
  | .kick => kick_user f
  | .ban => ban_user f

/-- Embeds `PunishmentManager.handle_spam`: (1) increment the user's
violation count; (2) delete the offending message under
`try/except TelegramError`; (3) dispatch warn/kick/ban by count;
(4) append the audit row.  Returns the database as mutated so far
(mutations survive an escaping exception, as in Python) together with
either the action string or the exception that escaped. -/
def handle_spam (db : DB) (now : Nat) (uid : Int) (username : Option String)
    (message_text : String) (llm_score : Rat) (f : AdapterFaults) :
    DB × Except Exc String :=
  let r := db.increment_violation now uid username
  if f.deleteMessage == some .otherError then (r.1, .error .otherError)
  else
    match dispatch_action r.2 f with
    | .error e => (r.1, .error e)
    | .ok action => (r.1.log_spam uid username message_text llm_score action, .ok action)

/-- Configuration and collaborators of `MessageHandler` that the
orchestration logic reads: the dry-run and whitelist-enforcement
flags, the whitelist and cached admin sets of `WhitelistManager`, and
the detector threshold. -/
structure HandlerCfg where
  dry_run : Bool
  enable_whitelist : Bool
  whitelist : List Int
  admin_ids : List Int
  threshold : Rat
deriving DecidableEq, Repr

/-- Embeds `WhitelistManager.is_whitelisted`: member of the whitelist
or of the cached admin set. -/
def HandlerCfg.is_whitelisted (cfg : HandlerCfg) (uid : Int) : Bool :=
  cfg.whitelist.contains uid || cfg.admin_ids.contains uid

/-- An inbound Telegram update as `MessageHandler.handle_message` sees
it: `text = none` models a non-text message; `username` is the
sender's username-or-first-name string the handler computes. -/
structure Msg where
  text : Option String
  user_id : Int
  username : String
  chat_id : Int
deriving DecidableEq, Repr

/-- Embeds the command check `message.text.startswith('/')`: the text
begins with the slash character. -/
def startswith_slash (s : String) : Bool :=
  match s.data with
  | [] => false
  | c :: _ => c == '/'

/-- Result of one run of `MessageHandler.handle_message`: the limiter
and database states afterwards, whether `check_message` was invoked,
whether `rate_limiter.increment` was invoked, and whether
`handle_spam` was invoked. -/
structure HandleOutcome where
  rl : RateLimiter
  db : DB
  classified : Bool
  committed : Bool
  punished : Bool
deriving DecidableEq, Repr

/-- Embeds `MessageHandler.handle_message`: ignore non-text and
command messages; skip whitelisted senders when enforcement is on;
gate on `can_call_api` (querying `get_remaining` on the exhausted
path); otherwise run the detector, increment the quota, and when spam
is flagged either log only (dry run) or invoke `handle_spam`, whose
escaping exceptions the surrounding `except Exception` absorbs. -/
def handle_message (cfg : HandlerCfg) (rl : RateLimiter) (db : DB)
    (today now : Nat) (msg : Msg) (o : ClassifierOutcome)
    (f : AdapterFaults) : HandleOutcome :=
  match msg.text with
  | none => ⟨rl, db, false, false, false⟩
  | some text =>
    if startswith_slash text then ⟨rl, db, false, false, false⟩
    else if cfg.enable_whitelist && cfg.is_whitelisted msg.user_id then
      ⟨rl, db, false, false, false⟩
    else
      let q := rl.can_call_api db today
      if !q.2 then
        let q2 := q.1.get_remaining db today
        ⟨q2.1, db, false, false, false⟩
      else
        let c := check_message cfg.threshold o
        let r := q.1.increment db today
        if c.1 then
          if cfg.dry_run then ⟨r.1, r.2, true, true, false⟩
          else
            let p := handle_spam r.2 now msg.user_id (some msg.username) text c.2.1 f
            ⟨r.1, p.1, true, true, true⟩
        else ⟨r.1, r.2, true, true, false⟩

/-- Alternating `can_call_api`/`increment` pairs, threading the
limiter and database states and collecting the answers of the
successive `can_call_api` calls, oldest first. -/
def acquireCommitSteps (d : Nat) (s : RateLimiter × DB) :
    Nat → (RateLimiter × DB) × List Bool
  | 0 => (s, [])
  | k + 1 =>
      let r := acquireCommitSteps d s k
      let q := r.1.1.can_call_api r.1.2 d
      let t := q.1.increment r.1.2 d
      (t, r.2 ++ [q.2])

/-! ### Helper lemmas about the database layer -/

theorem update_api_usage_violations (db : DB) (d c : Nat) :
    (db.update_api_usage d c).violations = db.violations := by
  unfold DB.update_api_usage; split <;> rfl

theorem update_api_usage_spam_logs (db : DB) (d c : Nat) :
    (db.update_api_usage d c).spam_logs = db.spam_logs := by
  unfold DB.update_api_usage; split <;> rfl

theorem find?_map_overwrite (l : List (Nat × Nat)) (d c : Nat)
    (h : l.any (fun p => p.1 == d) = true) :
    (l.map (fun p => if p.1 == d then (d, c) else p)).find? (fun p => p.1 == d)
      = some (d, c) := by
  induction l with
  | nil => simp at h
  | cons hd tl ih =>
      cases hh : (hd.1 == d) with
      | true =>
          rw [List.map_cons, if_pos hh, List.find?_cons_of_pos _ (by simp)]
      | false =>
          rw [List.map_cons, if_neg (by simp [hh]),
              List.find?_cons_of_neg _ (by simp [hh])]
          apply ih
          simpa [List.any_cons, hh] using h

theorem get_update_api_usage (db : DB) (d c : Nat) :
    (db.update_api_usage d c).get_api_usage d = c := by
  unfold DB.update_api_usage
  by_cases h : db.api_usage.any (fun p => p.1 == d) = true
  · rw [if_pos h]
    unfold DB.get_api_usage
    rw [find?_map_overwrite _ _ _ h]
  · rw [if_neg h]
    unfold DB.get_api_usage
    have hn : db.api_usage.find? (fun p => p.1 == d) = none := by
      rw [List.find?_eq_none]
      intro x hx hpx
      exact h (List.any_eq_true.mpr ⟨x, hx, hpx⟩)
    rw [List.find?_append, hn, Option.none_or,
        List.find?_cons_of_pos _ (by simp)]

theorem increment_violation_spam_logs (db : DB) (now : Nat) (u : Int)
    (name : Option String) :
    (db.increment_violation now u name).1.spam_logs = db.spam_logs := by
  unfold DB.increment_violation DB.get_violation DB.cleanup_expired_violations
  cases h : List.find? (fun v => v.user_id == u)
      (db.violations.filter (fun v => !(decide (v.reset_at < now)))) <;> simp [h]

theorem increment_violation_api_usage (db : DB) (now : Nat) (u : Int)
    (name : Option String) :
    (db.increment_violation now u name).1.api_usage = db.api_usage := by
  unfold DB.increment_violation DB.get_violation DB.cleanup_expired_violations
  cases h : List.find? (fun v => v.user_id == u)
      (db.violations.filter (fun v => !(decide (v.reset_at < now)))) <;> simp [h]

/-! ### Claim C3: day rollover on every RateLimiter access -/

/-- C3 counterexample: the claim asserts that `increment` also
reloads the in-memory count for the new day before writing, but at
the concrete state (cached day 0, count 5, persisted count 2 for day
1) a call on day 1 neither adopts the new day nor reloads: it keeps
day 0 and writes count 6 under it. -/
theorem C3_increment_skips_rollover_cex :
    ¬ (∀ (rl : RateLimiter) (db : DB) (d : Nat), rl.initialized = true → d ≠ rl.today →
        (rl.increment db d).1.today = d ∧
        (rl.increment db d).1.count = db.get_api_usage d + 1) := by
  intro h
  have h2 := h ⟨1000, 0, 5, true⟩ ⟨[], [], [(1, 2)]⟩ 1 rfl (by decide)
  exact absurd h2.1 (by decide)

/-- C3 (amended): every read access to the RateLimiter
(`can_call_api`, `get_remaining`, `get_usage`) reloads the in-memory
count from the persistent store for the new day before answering when
the wall-clock day differs from the cached day; `increment`, however,
performs no such reload and persists the incremented cached count
under the old cached day. -/
theorem C3_read_access_rollover (rl : RateLimiter) (db : DB) (d : Nat)
    (hinit : rl.initialized = true) (hd : d ≠ rl.today) :
    ((rl.can_call_api db d).1.today = d ∧
      (rl.can_call_api db d).1.count = db.get_api_usage d) ∧
    ((rl.get_remaining db d).1.today = d ∧
      (rl.get_remaining db d).1.count = db.get_api_usage d) ∧
    ((rl.get_usage db d).1.today = d ∧
      (rl.get_usage db d).1.count = db.get_api_usage d) ∧
    ((rl.increment db d).1.today = rl.today ∧
      (rl.increment db d).1.count = rl.count + 1 ∧
      (rl.increment db d).2 = db.update_api_usage rl.today (rl.count + 1)) := by
  simp [RateLimiter.can_call_api, RateLimiter.get_remaining, RateLimiter.get_usage,
        RateLimiter.increment, RateLimiter.ensure_init, RateLimiter.refresh_if_new_day,
        hinit, hd]

theorem C3_read_access_rollover_witness :
    ((1 : Nat) ≠ 0) ∧
    ((RateLimiter.can_call_api ⟨1000, 0, 5, true⟩ ⟨[], [], [(1, 2)]⟩ 1).1.today = 1 ∧
      (RateLimiter.can_call_api ⟨1000, 0, 5, true⟩ ⟨[], [], [(1, 2)]⟩ 1).1.count
        = DB.get_api_usage ⟨[], [], [(1, 2)]⟩ 1) :=
  ⟨by decide,
   ((C3_read_access_rollover ⟨1000, 0, 5, true⟩ ⟨[], [], [(1, 2)]⟩ 1 rfl (by decide)).1)⟩

/-! ### Claim C7: quota behaviour over a day -/

theorem acquireCommitSteps_spec (d N : Nat) (k : Nat) :
    ∀ (c : Nat) (db : DB),
      (acquireCommitSteps d (⟨N, d, c, true⟩, db) k).1.1 = ⟨N, d, c + k, true⟩ ∧
      (acquireCommitSteps d (⟨N, d, c, true⟩, db) k).2 =
        (List.range k).map (fun i => decide (c + i < N)) := by
  induction k with
  | zero => intro c db; simp [acquireCommitSteps]
  | succ k ih =>
      intro c db
      have h1 := (ih c db).1
      have h2 := (ih c db).2
      constructor
      · simp [acquireCommitSteps, h1, RateLimiter.can_call_api, RateLimiter.increment,
              RateLimiter.ensure_init, RateLimiter.refresh_if_new_day]
        omega
      · simp [acquireCommitSteps, h1, h2, RateLimiter.can_call_api,
              RateLimiter.ensure_init, RateLimiter.refresh_if_new_day, List.range_succ]

/-- C7: from an initialized limiter with daily limit N and count 0,
within one calendar day, the sequence of `can_call_api` answers in
N+1 acquire/commit pairs is true exactly for the first N calls and
false for the (N+1)-th; after a day rollover a read access adopts the
count persisted for the new day, which defaults to 0 when no row
exists; and `get_remaining` is always non-negative. -/
theorem C7_quota_gate (N d : Nat) (db : DB) :
    (acquireCommitSteps d (⟨N, d, 0, true⟩, db) (N + 1)).2 =
      (List.range (N + 1)).map (fun i => decide (i < N)) ∧
    (∀ (rl : RateLimiter) (db2 : DB) (d2 : Nat), rl.initialized = true → d2 ≠ rl.today →
        (rl.can_call_api db2 d2).1.count = db2.get_api_usage d2) ∧
    (∀ (db2 : DB) (d2 : Nat), (∀ p ∈ db2.api_usage, ¬ p.1 = d2) →
        db2.get_api_usage d2 = 0) ∧
    (∀ (rl : RateLimiter) (db2 : DB) (d2 : Nat), 0 ≤ (rl.get_remaining db2 d2).2) := by
  refine ⟨?_, ?_, ?_, ?_⟩
  · have h := (acquireCommitSteps_spec d N (N + 1)) 0 db
    simpa using h.2
  · intro rl db2 d2 hinit hd
    simp [RateLimiter.can_call_api, RateLimiter.ensure_init,
          RateLimiter.refresh_if_new_day, hinit, hd]
  · intro db2 d2 h
    unfold DB.get_api_usage
    have hn : db2.api_usage.find? (fun p => p.1 == d2) = none := by
      rw [List.find?_eq_none]
      intro x hx hpx
      exact h x hx (by simpa using hpx)
    simp [hn]
  · intro rl db2 d2
    simp [RateLimiter.get_remaining]

theorem C7_quota_gate_witness :
    (acquireCommitSteps 0 (⟨2, 0, 0, true⟩, (⟨[], [], []⟩ : DB)) 3).2
      = [true, true, false] ∧
    ((1 : Nat) ≠ 5) ∧
    (RateLimiter.can_call_api ⟨1000, 5, 9, true⟩ ⟨[], [], [(1, 4)]⟩ 1).1.count
      = DB.get_api_usage ⟨[], [], [(1, 4)]⟩ 1 := by
  refine ⟨?_, by decide, ?_⟩
  · rw [(C7_quota_gate 2 0 ⟨[], [], []⟩).1]; decide
  · exact (C7_quota_gate 2 0 ⟨[], [], []⟩).2.1 ⟨1000, 5, 9, true⟩ ⟨[], [], [(1, 4)]⟩ 1
      rfl (by decide)


/-! ### Helper lemmas about violation records -/

theorem find?_user_none_of_no_row (l : List Violation) (u : Int)
    (h : ∀ v ∈ l, v.user_id ≠ u) :
    l.find? (fun v => v.user_id == u) = none := by
  rw [List.find?_eq_none]
  intro x hx hpx
  exact h x hx (by simpa using hpx)

theorem no_row_filter (l : List Violation) (u : Int) (p : Violation → Bool)
    (h : ∀ v ∈ l, v.user_id ≠ u) :
    ∀ v ∈ l.filter p, v.user_id ≠ u := by
  intro v hv
  exact h v (List.mem_filter.mp hv).1

theorem no_active_row_clean (db : DB) (now : Nat) (u : Int)
    (h : ∀ v ∈ db.violations, v.user_id = u → v.reset_at < now) :
    ∀ v ∈ db.violations.filter (fun v => !(decide (v.reset_at < now))),
      v.user_id ≠ u := by
  intro v hv hvu
  have h1 := List.mem_filter.mp hv
  have h2 := h v h1.1 hvu
  have h3 := h1.2
  simp [h2] at h3

theorem increment_violation_fresh (db : DB) (now : Nat) (u : Int) (name : Option String)
    (h : ∀ v ∈ db.violations, v.user_id = u → v.reset_at < now) :
    (db.increment_violation now u name).2 = 1 ∧
    (db.increment_violation now u name).1.violations =
      db.violations.filter (fun v => !(decide (v.reset_at < now)))
        ++ [⟨u, name, 1, now, now + retentionWindow⟩] := by
  have hfind := find?_user_none_of_no_row _ u (no_active_row_clean db now u h)
  unfold DB.increment_violation DB.get_violation DB.cleanup_expired_violations
  simp only [hfind]
  exact ⟨trivial, trivial⟩

theorem increment_violation_step (db : DB) (now : Nat) (u : Int) (name : Option String)
    (l : List Violation) (v : Violation)
    (hdb : db.violations = l ++ [v])
    (hl : ∀ w ∈ l, w.user_id ≠ u)
    (hv : v.user_id = u)
    (hlive : ¬ v.reset_at < now) :
    (db.increment_violation now u name).2 = v.violation_count + 1 ∧
    (db.increment_violation now u name).1.violations =
      l.filter (fun w => !(decide (w.reset_at < now))) ++ [bumpRow v now name] := by
  have hkeep : (!(decide (v.reset_at < now))) = true := by simp [hlive]
  have hfilter : (l ++ [v]).filter (fun w => !(decide (w.reset_at < now)))
      = l.filter (fun w => !(decide (w.reset_at < now))) ++ [v] := by
    rw [List.filter_append]
    simp [hkeep]
  have hfl := no_row_filter l u (fun w => !(decide (w.reset_at < now))) hl
  have hfind : ((l ++ [v]).filter (fun w => !(decide (w.reset_at < now)))).find?
      (fun w => w.user_id == u) = some v := by
    rw [hfilter, List.find?_append, find?_user_none_of_no_row _ u hfl, Option.none_or,
        List.find?_cons_of_pos _ (by simp [hv])]
  have hmap : ∀ (f : Violation → Violation),
      (∀ w, (w.user_id == u) = false → f w = w) →
      (l.filter (fun w => !(decide (w.reset_at < now)))).map f
        = l.filter (fun w => !(decide (w.reset_at < now))) := by
    intro f hf
    have h1 : ∀ a ∈ l.filter (fun w => !(decide (w.reset_at < now))), f a = id a := by
      intro a ha
      exact hf a (by simp [hfl a ha])
    rw [List.map_congr_left h1, List.map_id]
  unfold DB.increment_violation DB.get_violation DB.cleanup_expired_violations
  simp only [hdb, hfind]
  refine ⟨trivial, ?_⟩
  show (((l ++ [v]).filter (fun w => !(decide (w.reset_at < now)))).map _) = _
  rw [hfilter, List.map_append, hmap _ (by intro w hw; rw [if_neg (by simp [hw])])]
  simp only [List.map_cons, List.map_nil]
  rw [if_pos (by simp [hv])]
  rfl

/-! ### Claim C4: monotonic escalation warn, kick, ban -/

/-- C4: for a user with no active violation record, successive calls
to `increment_violation` within the retention window return 1, 2, 3,
4, and the tier `handle_spam` dispatches is warn at count 1, kick at
count 2 and ban at every count from 3 on. -/
theorem C4_monotonic_escalation (db : DB) (u : Int) (name : Option String)
    (n1 n2 n3 n4 : Nat)
    (h0 : ∀ v ∈ db.violations, v.user_id = u → v.reset_at < n1)
    (h12 : ¬ n1 + retentionWindow < n2)
    (h23 : ¬ n2 + retentionWindow < n3)
    (h34 : ¬ n3 + retentionWindow < n4) :
    (db.increment_violation n1 u name).2 = 1 ∧
    ((db.increment_violation n1 u name).1.increment_violation n2 u name).2 = 2 ∧
    (((db.increment_violation n1 u name).1.increment_violation n2 u
        name).1.increment_violation n3 u name).2 = 3 ∧
    ((((db.increment_violation n1 u name).1.increment_violation n2 u
        name).1.increment_violation n3 u name).1.increment_violation n4 u name).2 = 4 ∧
    tierOf 1 = Tier.warn ∧ tierOf 2 = Tier.kick ∧ tierOf 3 = Tier.ban ∧
    (∀ n, 3 ≤ n → tierOf n = Tier.ban) := by
  obtain ⟨hc1, hdb1⟩ := increment_violation_fresh db n1 u name h0
  have hclean1 := no_active_row_clean db n1 u h0
  obtain ⟨hc2, hdb2⟩ := increment_violation_step _ n2 u name _ _ hdb1 hclean1 rfl h12
  have hclean2 := no_row_filter _ u (fun w => !(decide (w.reset_at < n2))) hclean1
  obtain ⟨hc3, hdb3⟩ := increment_violation_step _ n3 u name _ _ hdb2 hclean2 rfl h23
  have hclean3 := no_row_filter _ u (fun w => !(decide (w.reset_at < n3))) hclean2
  obtain ⟨hc4, _⟩ := increment_violation_step _ n4 u name _ _ hdb3 hclean3 rfl h34
  refine ⟨hc1, ?_, ?_, ?_, rfl, rfl, rfl, ?_⟩
  · simp [hc2, bumpRow]
  · simp [hc3, bumpRow]
  · simp [hc4, bumpRow]
  · intro n hn
    unfold tierOf
    have h1 : (n == 1) = false := by simp; omega
    have h2 : (n == 2) = false := by simp; omega
    rw [h1, h2]
    rfl

theorem C4_monotonic_escalation_witness :
    (∀ v ∈ (⟨[], [], []⟩ : DB).violations, v.user_id = 7 → v.reset_at < 10) ∧
    ((⟨[], [], []⟩ : DB).increment_violation 10 7 none).2 = 1 ∧
    (((⟨[], [], []⟩ : DB).increment_violation 10 7 none).1.increment_violation 11 7
      none).2 = 2 :=
  ⟨by decide,
   (C4_monotonic_escalation ⟨[], [], []⟩ 7 none 10 11 12 13 (by decide) (by decide)
      (by decide) (by decide)).1,
   (C4_monotonic_escalation ⟨[], [], []⟩ 7 none 10 11 12 13 (by decide) (by decide)
      (by decide) (by decide)).2.1⟩

/-! ### Claim C5: expired records behave as absent -/

/-- C5: a lookup never returns a violation record whose expiry is in
the past; the lazy sweep physically removes every expired row from the
table during the access; and when all of a user's rows are expired,
the next `increment_violation` returns 1, not a stale count plus
one. -/
theorem C5_expiry_wins (db : DB) (now : Nat) (u : Int) (name : Option String) :
    (∀ v, (db.get_violation now u).2 = some v → ¬ v.reset_at < now) ∧
    (∀ v ∈ (db.get_violation now u).1.violations, ¬ v.reset_at < now) ∧
    ((∀ v ∈ db.violations, v.user_id = u → v.reset_at < now) →
      (db.increment_violation now u name).2 = 1) := by
  refine ⟨?_, ?_, ?_⟩
  · intro v hv
    unfold DB.get_violation DB.cleanup_expired_violations at hv
    have hmem := List.mem_of_find?_eq_some hv
    have h1 := List.mem_filter.mp hmem
    have h2 := h1.2
    simp at h2
    omega
  · intro v hv
    unfold DB.get_violation DB.cleanup_expired_violations at hv
    have h1 := List.mem_filter.mp hv
    have h2 := h1.2
    simp at h2
    omega
  · intro h
    exact (increment_violation_fresh db now u name h).1

theorem C5_expiry_wins_witness :
    (∀ v ∈ (⟨[⟨7, none, 2, 0, 50⟩], [], []⟩ : DB).violations,
        v.user_id = 7 → v.reset_at < 100) ∧
    ((⟨[⟨7, none, 2, 0, 50⟩], [], []⟩ : DB).increment_violation 100 7 none).2 = 1 :=
  ⟨by decide, (C5_expiry_wins ⟨[⟨7, none, 2, 0, 50⟩], [], []⟩ 100 7 none).2.2 (by decide)⟩

/-! ### Helper lemmas about the punishment engine -/

theorem warn_user_ok (f : AdapterFaults) (a : String) (h : warn_user f = .ok a) :
    a = "warning" := by
  unfold warn_user at h
  rcases hwn : f.warnNotice with _ | e
  · rw [hwn] at h; exact (Except.ok.inj h).symm
  · cases e
    · rw [hwn] at h; exact (Except.ok.inj h).symm
    · rw [hwn] at h; exact Except.noConfusion h

theorem kick_user_ok (f : AdapterFaults) (a : String) (h : kick_user f = .ok a) :
    a = "kick" := by
  unfold kick_user at h
  rcases hkm : f.kickMember with _ | e
  · rw [hkm] at h
    rcases hkn : f.kickNotice with _ | e2
    · rw [hkn] at h; exact (Except.ok.inj h).symm
    · cases e2
      · rw [hkn] at h; exact (Except.ok.inj h).symm
      · rw [hkn] at h; exact Except.noConfusion h
  · cases e
    · rw [hkm] at h; exact (Except.ok.inj h).symm
    · rw [hkm] at h; exact Except.noConfusion h

theorem ban_user_ok (f : AdapterFaults) (a : String) (h : ban_user f = .ok a) :
    a = "ban" := by
  unfold ban_user at h
  rcases hbm : f.banMember with _ | e
  · rw [hbm] at h
    rcases hbn : f.banNotice with _ | e2
    · rw [hbn] at h; exact (Except.ok.inj h).symm
    · cases e2
      · rw [hbn] at h; exact (Except.ok.inj h).symm
      · rw [hbn] at h; exact Except.noConfusion h
  · cases e
    · rw [hbm] at h; exact (Except.ok.inj h).symm
    · rw [hbm] at h; exact Except.noConfusion h

theorem dispatch_action_ok (n : Nat) (f : AdapterFaults) (a : String)
    (h : dispatch_action n f = .ok a) :
    a = "warning" ∨ a = "kick" ∨ a = "ban" := by
  unfold dispatch_action at h
  cases htier : tierOf n <;> rw [htier] at h
  · exact Or.inl (warn_user_ok f a h)
  · exact Or.inr (Or.inl (kick_user_ok f a h))
  · exact Or.inr (Or.inr (ban_user_ok f a h))

theorem warn_user_ok_of (f : AdapterFaults) (hw : f.warnNotice ≠ some Exc.otherError) :
    warn_user f = .ok "warning" := by
  unfold warn_user
  rcases hwn : f.warnNotice with _ | e
  · rfl
  · cases e
    · rfl
    · exact absurd hwn hw

theorem kick_user_ok_of (f : AdapterFaults) (hk : f.kickMember ≠ some Exc.otherError)
    (hkn : f.kickNotice ≠ some Exc.otherError) :
    kick_user f = .ok "kick" := by
  unfold kick_user
  rcases hkm : f.kickMember with _ | e
  · rcases hk2 : f.kickNotice with _ | e2
    · rfl
    · cases e2
      · rfl
      · exact absurd hk2 hkn
  · cases e
    · rfl
    · exact absurd hkm hk

theorem ban_user_ok_of (f : AdapterFaults) (hb : f.banMember ≠ some Exc.otherError)
    (hbn : f.banNotice ≠ some Exc.otherError) :
    ban_user f = .ok "ban" := by
  unfold ban_user
  rcases hbm : f.banMember with _ | e
  · rcases hb2 : f.banNotice with _ | e2
    · rfl
    · cases e2
      · rfl
      · exact absurd hb2 hbn
  · cases e
    · rfl
    · exact absurd hbm hb

theorem dispatch_action_total (n : Nat) (f : AdapterFaults) (hf : f.onlyTelegram) :
    ∃ a, dispatch_action n f = .ok a := by
  obtain ⟨_, hw, hk, hkn, hb, hbn⟩ := hf
  unfold dispatch_action
  cases htier : tierOf n
  · exact ⟨"warning", warn_user_ok_of f hw⟩
  · exact ⟨"kick", kick_user_ok_of f hk hkn⟩
  · exact ⟨"ban", ban_user_ok_of f hb hbn⟩

theorem delete_guard_false (f : AdapterFaults) (hd : f.deleteMessage ≠ some Exc.otherError) :
    (f.deleteMessage == some Exc.otherError) = false := by
  rcases hdm : f.deleteMessage with _ | e
  · rfl
  · cases e
    · rfl
    · exact absurd hdm hd

/-! ### Claim C1: audit bookkeeping survives platform errors -/

/-- C1 counterexample: the claim quantifies over arbitrary exceptions
from the platform calls, but the code catches only `TelegramError`;
when the message-deletion call raises a non-Telegram exception, the
audit row is never appended although step 1 (the violation increment)
succeeded. -/
theorem C1_arbitrary_error_loses_log_cex :
    ¬ (∀ (db : DB) (now : Nat) (uid : Int) (name : Option String) (text : String)
          (score : Rat) (f : AdapterFaults),
        ((handle_spam db now uid name text score f).1.spam_logs).length
          = db.spam_logs.length + 1) := by
  intro h
  have h2 := h ⟨[], [], []⟩ 0 7 none "x" 9
    ⟨some .otherError, none, none, none, none, none⟩
  exact absurd h2 (by decide)

/-- C1 (amended): when every exception the platform calls raise in
steps 2 and 3 is a `TelegramError` (the platform error class the code
catches), `handle_spam` always reaches step 4: it returns an action
and appends exactly one audit row recording it. -/
theorem C1_log_always_written_on_telegram_errors (db : DB) (now : Nat) (uid : Int)
    (name : Option String) (text : String) (score : Rat) (f : AdapterFaults)
    (hf : f.onlyTelegram) :
    ∃ a, (handle_spam db now uid name text score f).2 = .ok a ∧
      (handle_spam db now uid name text score f).1.spam_logs =
        db.spam_logs ++ [⟨uid, name, text, score, a⟩] := by
  obtain ⟨a, ha⟩ := dispatch_action_total (db.increment_violation now uid name).2 f hf
  have hdel := delete_guard_false f hf.1
  refine ⟨a, ?_, ?_⟩
  · unfold handle_spam
    simp only [hdel, Bool.false_eq_true, if_false, ha]
  · unfold handle_spam
    simp only [hdel, Bool.false_eq_true, if_false, ha, DB.log_spam]
    rw [increment_violation_spam_logs]

theorem C1_log_always_written_witness :
    (AdapterFaults.onlyTelegram
      ⟨some .telegramError, some .telegramError, some .telegramError,
        some .telegramError, some .telegramError, some .telegramError⟩) ∧
    ∃ a, (handle_spam ⟨[], [], []⟩ 5 7 none "x" 9
        ⟨some .telegramError, some .telegramError, some .telegramError,
          some .telegramError, some .telegramError, some .telegramError⟩).2 = .ok a ∧
      (handle_spam ⟨[], [], []⟩ 5 7 none "x" 9
        ⟨some .telegramError, some .telegramError, some .telegramError,
          some .telegramError, some .telegramError, some .telegramError⟩).1.spam_logs =
        ([] : List SpamLogEntry) ++ [⟨7, none, "x", 9, a⟩] :=
  ⟨by decide,
   C1_log_always_written_on_telegram_errors ⟨[], [], []⟩ 5 7 none "x" 9
     ⟨some .telegramError, some .telegramError, some .telegramError,
       some .telegramError, some .telegramError, some .telegramError⟩ (by decide)⟩

/-! ### Claim C8: recorded action names -/

/-- C8 counterexample: at a concrete first-time violation with no
platform faults, `handle_spam` returns and records the action string
"warning", which is not one of the spec's names warn, kick, ban. -/
theorem C8_action_is_warning_not_warn_cex :
    (handle_spam ⟨[], [], []⟩ 0 7 none "hi" 9 ⟨none, none, none, none, none, none⟩).2
      = Except.ok "warning" ∧
    ¬ (∀ e ∈ (handle_spam ⟨[], [], []⟩ 0 7 none "hi" 9
          ⟨none, none, none, none, none, none⟩).1.spam_logs,
        e.action = "warn" ∨ e.action = "kick" ∨ e.action = "ban") :=
  ⟨rfl, by decide⟩

/-- C8 (amended): every audit row appended by `handle_spam` records
an action that is one of "warning", "kick", "ban" (the code's name
for the warn tier is "warning"); for a first-time violator whose
deletion and warning-notice calls raise no foreign exception, the
returned and recorded action is "warning". -/
theorem C8_actions_warning_kick_ban (db : DB) (now : Nat) (uid : Int)
    (name : Option String) (text : String) (score : Rat) (f : AdapterFaults) :
    (∀ e ∈ (handle_spam db now uid name text score f).1.spam_logs,
        e ∈ db.spam_logs ∨ e.action = "warning" ∨ e.action = "kick" ∨ e.action = "ban") ∧
    ((∀ v ∈ db.violations, v.user_id = uid → v.reset_at < now) →
      f.deleteMessage ≠ some Exc.otherError → f.warnNotice ≠ some Exc.otherError →
      (handle_spam db now uid name text score f).2 = .ok "warning" ∧
      (handle_spam db now uid name text score f).1.spam_logs =
        db.spam_logs ++ [⟨uid, name, text, score, "warning"⟩]) := by
  constructor
  · intro e he
    unfold handle_spam at he
    by_cases hdel : (f.deleteMessage == some Exc.otherError) = true
    · rw [if_pos hdel] at he
      rw [increment_violation_spam_logs] at he
      exact Or.inl he
    · rw [if_neg hdel] at he
      cases ha : dispatch_action (db.increment_violation now uid name).2 f with
      | error x =>
          rw [ha] at he
          rw [increment_violation_spam_logs] at he
          exact Or.inl he
      | ok a =>
          rw [ha] at he
          unfold DB.log_spam at he
          rw [increment_violation_spam_logs] at he
          rcases List.mem_append.mp he with h1 | h1
          · exact Or.inl h1
          · have h2 : e.action = a := by
              rcases List.mem_singleton.mp h1 with rfl
              rfl
            rw [h2]
            exact Or.inr (dispatch_action_ok _ f a ha)
  · intro h0 hd hw
    have hc1 := (increment_violation_fresh db now uid name h0).1
    have hdel := delete_guard_false f hd
    have hdisp : dispatch_action (db.increment_violation now uid name).2 f
        = .ok "warning" := by
      rw [hc1]
      unfold dispatch_action tierOf
      simp only [Nat.reduceBEq]
      exact warn_user_ok_of f hw
    constructor
    · unfold handle_spam
      simp only [hdel, Bool.false_eq_true, if_false, hdisp]
    · unfold handle_spam
      simp only [hdel, Bool.false_eq_true, if_false, hdisp, DB.log_spam]
      rw [increment_violation_spam_logs]

theorem C8_actions_warning_kick_ban_witness :
    ((handle_spam ⟨[], [], []⟩ 0 7 none "hi" 9
        ⟨none, none, none, none, none, none⟩).2 = .ok "warning") ∧
    (∀ e ∈ (handle_spam ⟨[], [], []⟩ 0 7 none "hi" 9
        ⟨none, none, none, none, none, none⟩).1.spam_logs,
      e ∈ (⟨[], [], []⟩ : DB).spam_logs ∨ e.action = "warning" ∨ e.action = "kick" ∨
        e.action = "ban") :=
  ⟨((C8_actions_warning_kick_ban ⟨[], [], []⟩ 0 7 none "hi" 9
      ⟨none, none, none, none, none, none⟩).2 (by decide) (by decide) (by decide)).1,
   (C8_actions_warning_kick_ban ⟨[], [], []⟩ 0 7 none "hi" 9
      ⟨none, none, none, none, none, none⟩).1⟩

/-! ### Helper lemmas about the orchestrator -/

theorem can_call_api_ready (rl : RateLimiter) (db : DB) (d : Nat)
    (hinit : rl.initialized = true) (htoday : rl.today = d) :
    rl.can_call_api db d = (rl, decide (rl.count < rl.daily_limit)) := by
  simp [RateLimiter.can_call_api, RateLimiter.ensure_init,
        RateLimiter.refresh_if_new_day, hinit, htoday]

theorem increment_ready (rl : RateLimiter) (db : DB) (d : Nat)
    (hinit : rl.initialized = true) :
    rl.increment db d =
      ({ rl with count := rl.count + 1 }, db.update_api_usage rl.today (rl.count + 1)) := by
  simp [RateLimiter.increment, RateLimiter.ensure_init, hinit]

theorem handle_message_some (cfg : HandlerCfg) (rl : RateLimiter) (db : DB)
    (today now : Nat) (msg : Msg) (text : String) (o : ClassifierOutcome)
    (f : AdapterFaults) (htext : msg.text = some text) :
    handle_message cfg rl db today now msg o f =
      if startswith_slash text then ⟨rl, db, false, false, false⟩
      else if cfg.enable_whitelist && cfg.is_whitelisted msg.user_id then
        ⟨rl, db, false, false, false⟩
      else if !(rl.can_call_api db today).2 then
        ⟨((rl.can_call_api db today).1.get_remaining db today).1, db,
          false, false, false⟩
      else if (check_message cfg.threshold o).1 then
        if cfg.dry_run then
          ⟨((rl.can_call_api db today).1.increment db today).1,
            ((rl.can_call_api db today).1.increment db today).2, true, true, false⟩
        else
          ⟨((rl.can_call_api db today).1.increment db today).1,
            (handle_spam ((rl.can_call_api db today).1.increment db today).2 now
              msg.user_id (some msg.username) text
              (check_message cfg.threshold o).2.1 f).1, true, true, true⟩
      else
        ⟨((rl.can_call_api db today).1.increment db today).1,
          ((rl.can_call_api db today).1.increment db today).2, true, true, false⟩ := by
  unfold handle_message
  rw [htext]

theorem handle_message_none (cfg : HandlerCfg) (rl : RateLimiter) (db : DB)
    (today now : Nat) (msg : Msg) (o : ClassifierOutcome)
    (f : AdapterFaults) (htext : msg.text = none) :
    handle_message cfg rl db today now msg o f = ⟨rl, db, false, false, false⟩ := by
  unfold handle_message
  rw [htext]

theorem handle_message_classify (cfg : HandlerCfg) (rl : RateLimiter) (db : DB)
    (today now : Nat) (msg : Msg) (text : String) (o : ClassifierOutcome)
    (f : AdapterFaults)
    (htext : msg.text = some text) (hcmd : startswith_slash text = false)
    (hwl : (cfg.enable_whitelist && cfg.is_whitelisted msg.user_id) = false)
    (hinit : rl.initialized = true) (htoday : rl.today = today)
    (hquota : rl.count < rl.daily_limit) :
    handle_message cfg rl db today now msg o f =
      if (check_message cfg.threshold o).1 then
        if cfg.dry_run then
          ⟨{ rl with count := rl.count + 1 },
            db.update_api_usage rl.today (rl.count + 1), true, true, false⟩
        else
          ⟨{ rl with count := rl.count + 1 },
            (handle_spam (db.update_api_usage rl.today (rl.count + 1)) now msg.user_id
              (some msg.username) text (check_message cfg.threshold o).2.1 f).1,
            true, true, true⟩
      else
        ⟨{ rl with count := rl.count + 1 },
          db.update_api_usage rl.today (rl.count + 1), true, true, false⟩ := by
  unfold handle_message
  rw [htext]
  simp only [hcmd, Bool.false_eq_true, if_false, hwl,
    can_call_api_ready rl db today hinit htoday, decide_eq_true hquota,
    Bool.not_true, increment_ready rl db today hinit]

/-! ### Claim C2: quota accounting around Classifier failures -/

/-- C2 counterexample: the claim says a Classifier failure raised
before the remote call leaves the quota untouched, but `check_message`
catches every exception internally and the handler then calls
`increment` unconditionally, so even a pre-call failure consumes one
unit at this concrete state. -/
theorem C2_precall_failure_no_commit_cex :
    ¬ (∀ (cfg : HandlerCfg) (rl : RateLimiter) (db : DB) (today now : Nat) (msg : Msg)
          (f : AdapterFaults),
        (handle_message cfg rl db today now msg .failBeforeCall f).committed = false ∧
        (handle_message cfg rl db today now msg .failBeforeCall f).rl.count = rl.count) := by
  intro h
  have h2 := (h ⟨false, true, [], [], 9⟩ ⟨10, 3, 0, true⟩ ⟨[], [], []⟩ 3 100
    ⟨some "hello", 7, "bob", 1⟩ ⟨none, none, none, none, none, none⟩).1
  exact absurd h2 (by decide)

/-- C2 (amended): `check_message` never raises — every Classifier
failure, including one before the remote call, is absorbed inside it —
and the handler then always calls `increment`, so one unit of quota is
consumed no matter at which stage the Classifier failed. -/
theorem C2_failure_always_commits (cfg : HandlerCfg) (rl : RateLimiter) (db : DB)
    (today now : Nat) (msg : Msg) (text : String) (o : ClassifierOutcome)
    (f : AdapterFaults)
    (hfail : o.isFailure = true)
    (htext : msg.text = some text) (hcmd : startswith_slash text = false)
    (hwl : (cfg.enable_whitelist && cfg.is_whitelisted msg.user_id) = false)
    (hinit : rl.initialized = true) (htoday : rl.today = today)
    (hquota : rl.count < rl.daily_limit) :
    (handle_message cfg rl db today now msg o f).committed = true ∧
    (handle_message cfg rl db today now msg o f).rl.count = rl.count + 1 := by
  rw [handle_message_classify cfg rl db today now msg text o f htext hcmd hwl hinit
    htoday hquota]
  cases hspam : (check_message cfg.threshold o).1 <;> cases hdry : cfg.dry_run <;>
    simp [hspam, hdry]

theorem C2_failure_always_commits_witness :
    (ClassifierOutcome.isFailure .failBeforeCall = true) ∧
    (handle_message ⟨false, true, [], [], 9⟩ ⟨10, 3, 0, true⟩ ⟨[], [], []⟩ 3 100
        ⟨some "hello", 7, "bob", 1⟩ .failBeforeCall
        ⟨none, none, none, none, none, none⟩).committed = true ∧
    (handle_message ⟨false, true, [], [], 9⟩ ⟨10, 3, 0, true⟩ ⟨[], [], []⟩ 3 100
        ⟨some "hello", 7, "bob", 1⟩ .failBeforeCall
        ⟨none, none, none, none, none, none⟩).rl.count = 0 + 1 :=
  ⟨by decide,
   C2_failure_always_commits ⟨false, true, [], [], 9⟩ ⟨10, 3, 0, true⟩ ⟨[], [], []⟩ 3 100
     ⟨some "hello", 7, "bob", 1⟩ "hello" .failBeforeCall
     ⟨none, none, none, none, none, none⟩ (by decide) rfl (by decide) (by decide) rfl
     rfl (by decide)⟩

/-! ### Claim C6: Classifier failures fail open -/

/-- C6: when the Classifier fails in any way (exception before,
during or after the remote call, or a malformed response) and the
configured threshold is positive, the message is treated as non-spam:
`handle_spam` is not invoked, the violations table is untouched and no
audit row is appended. -/
theorem C6_fail_open (cfg : HandlerCfg) (rl : RateLimiter) (db : DB)
    (today now : Nat) (msg : Msg) (o : ClassifierOutcome) (f : AdapterFaults)
    (hfail : o.isFailure = true) (hthr : 0 < cfg.threshold) :
    (check_message cfg.threshold o).1 = false ∧
    (handle_message cfg rl db today now msg o f).punished = false ∧
    (handle_message cfg rl db today now msg o f).db.violations = db.violations ∧
    (handle_message cfg rl db today now msg o f).db.spam_logs = db.spam_logs := by
  have hcheck : (check_message cfg.threshold o).1 = false := by
    cases o with
    | ok s r => simp [ClassifierOutcome.isFailure] at hfail
    | parseFail =>
        unfold check_message
        simp [decide_eq_false (not_le.mpr hthr)]
    | failBeforeCall => rfl
    | failDuringCall => rfl
    | failAfterCall => rfl
  refine ⟨hcheck, ?_⟩
  rcases hmt : msg.text with _ | text
  · rw [handle_message_none cfg rl db today now msg o f hmt]
    exact ⟨rfl, rfl, rfl⟩
  · rw [handle_message_some cfg rl db today now msg text o f hmt]
    by_cases hcmd : startswith_slash text = true
    · rw [if_pos hcmd]
      exact ⟨rfl, rfl, rfl⟩
    · rw [if_neg hcmd]
      by_cases hwl : (cfg.enable_whitelist && cfg.is_whitelisted msg.user_id) = true
      · rw [if_pos hwl]
        exact ⟨rfl, rfl, rfl⟩
      · rw [if_neg hwl]
        by_cases hq : (!(rl.can_call_api db today).2) = true
        · rw [if_pos hq]
          exact ⟨rfl, rfl, rfl⟩
        · rw [if_neg hq, hcheck]
          simp [RateLimiter.increment, update_api_usage_violations,
                update_api_usage_spam_logs]

theorem C6_fail_open_witness :
    (ClassifierOutcome.isFailure .failDuringCall = true) ∧ ((0 : Rat) < 9) ∧
    (handle_message ⟨false, true, [], [], 9⟩ ⟨10, 3, 0, true⟩ ⟨[], [], []⟩ 3 100
        ⟨some "hello", 7, "bob", 1⟩ .failDuringCall
        ⟨none, none, none, none, none, none⟩).punished = false ∧
    (handle_message ⟨false, true, [], [], 9⟩ ⟨10, 3, 0, true⟩ ⟨[], [], []⟩ 3 100
        ⟨some "hello", 7, "bob", 1⟩ .failDuringCall
        ⟨none, none, none, none, none, none⟩).db.spam_logs = ([] : List SpamLogEntry) :=
  ⟨by decide, by decide,
   (C6_fail_open ⟨false, true, [], [], 9⟩ ⟨10, 3, 0, true⟩ ⟨[], [], []⟩ 3 100
      ⟨some "hello", 7, "bob", 1⟩ .failDuringCall ⟨none, none, none, none, none, none⟩
      (by decide) (by decide)).2.1,
   (C6_fail_open ⟨false, true, [], [], 9⟩ ⟨10, 3, 0, true⟩ ⟨[], [], []⟩ 3 100
      ⟨some "hello", 7, "bob", 1⟩ .failDuringCall ⟨none, none, none, none, none, none⟩
      (by decide) (by decide)).2.2.2⟩

/-! ### Claim C9: whitelist gate -/

/-- C9: with whitelist enforcement enabled, a message whose sender is
in the whitelist or in the cached admin set is dropped before any
classification: the limiter and database are untouched, no quota is
consumed and no punishment happens, for every message; with
enforcement disabled, a classifiable message from such a sender is
classified (provided quota is available). -/
theorem C9_whitelist_gate (cfg : HandlerCfg) (rl : RateLimiter) (db : DB)
    (today now : Nat) (o : ClassifierOutcome) (f : AdapterFaults) :
    (∀ msg : Msg, cfg.enable_whitelist = true →
        (msg.user_id ∈ cfg.whitelist ∨ msg.user_id ∈ cfg.admin_ids) →
        handle_message cfg rl db today now msg o f = ⟨rl, db, false, false, false⟩) ∧
    (∀ (msg : Msg) (text : String), cfg.enable_whitelist = false →
        msg.text = some text → startswith_slash text = false →
        rl.initialized = true → rl.today = today → rl.count < rl.daily_limit →
        (handle_message cfg rl db today now msg o f).classified = true) := by
  constructor
  · intro msg hen hmem
    have hwl : cfg.is_whitelisted msg.user_id = true := by
      unfold HandlerCfg.is_whitelisted
      simp
      exact hmem
    rcases hmt : msg.text with _ | text
    · exact handle_message_none cfg rl db today now msg o f hmt
    · rw [handle_message_some cfg rl db today now msg text o f hmt]
      by_cases hcmd : startswith_slash text = true
      · rw [if_pos hcmd]
      · rw [if_neg hcmd, if_pos (by rw [hen, hwl]; rfl)]
  · intro msg text hen htext hcmd hinit htoday hquota
    rw [handle_message_classify cfg rl db today now msg text o f htext hcmd
      (by rw [hen]; rfl) hinit htoday hquota]
    cases hspam : (check_message cfg.threshold o).1 <;> cases hdry : cfg.dry_run <;>
      simp [hspam, hdry]

theorem C9_whitelist_gate_witness :
    (((7 : Int) ∈ [(7 : Int)] ∨ (7 : Int) ∈ ([] : List Int)) ∧
      handle_message ⟨false, true, [7], [], 9⟩ ⟨10, 3, 0, true⟩ ⟨[], [], []⟩ 3 100
        ⟨some "spam text", 7, "bob", 1⟩ (.ok 10 "r") ⟨none, none, none, none, none, none⟩
        = ⟨⟨10, 3, 0, true⟩, ⟨[], [], []⟩, false, false, false⟩) ∧
    (handle_message ⟨false, false, [7], [], 9⟩ ⟨10, 3, 0, true⟩ ⟨[], [], []⟩ 3 100
        ⟨some "spam text", 7, "bob", 1⟩ (.ok 10 "r")
        ⟨none, none, none, none, none, none⟩).classified = true :=
  ⟨⟨Or.inl (by decide),
    (C9_whitelist_gate ⟨false, true, [7], [], 9⟩ ⟨10, 3, 0, true⟩ ⟨[], [], []⟩ 3 100
      (.ok 10 "r") ⟨none, none, none, none, none, none⟩).1
      ⟨some "spam text", 7, "bob", 1⟩ rfl (Or.inl (by decide))⟩,
   (C9_whitelist_gate ⟨false, false, [7], [], 9⟩ ⟨10, 3, 0, true⟩ ⟨[], [], []⟩ 3 100
      (.ok 10 "r") ⟨none, none, none, none, none, none⟩).2
      ⟨some "spam text", 7, "bob", 1⟩ "spam text" rfl rfl (by decide) rfl rfl (by decide)⟩

/-! ### Claim C10: dry-run suppresses punishment but not quota -/

/-- C10: in dry-run mode a message classified as spam (with quota
available) still runs the classifier and still consumes one quota
unit — the cached count rises by one and the count persisted for the
day becomes count + 1 — but `handle_spam` is not invoked, the
violations table is untouched and no audit row is appended. -/
theorem C10_dry_run_spam (cfg : HandlerCfg) (rl : RateLimiter) (db : DB)
    (today now : Nat) (msg : Msg) (text : String) (o : ClassifierOutcome)
    (f : AdapterFaults)
    (hdry : cfg.dry_run = true)
    (htext : msg.text = some text) (hcmd : startswith_slash text = false)
    (hwl : (cfg.enable_whitelist && cfg.is_whitelisted msg.user_id) = false)
    (hinit : rl.initialized = true) (htoday : rl.today = today)
    (hquota : rl.count < rl.daily_limit)
    (hspam : (check_message cfg.threshold o).1 = true) :
    (handle_message cfg rl db today now msg o f).classified = true ∧
    (handle_message cfg rl db today now msg o f).committed = true ∧
    (handle_message cfg rl db today now msg o f).punished = false ∧
    (handle_message cfg rl db today now msg o f).db.violations = db.violations ∧
    (handle_message cfg rl db today now msg o f).db.spam_logs = db.spam_logs ∧
    (handle_message cfg rl db today now msg o f).rl.count = rl.count + 1 ∧
    (handle_message cfg rl db today now msg o f).db.get_api_usage today
      = rl.count + 1 := by
  rw [handle_message_classify cfg rl db today now msg text o f htext hcmd hwl hinit
    htoday hquota, hspam, if_pos rfl, hdry, if_pos rfl]
  refine ⟨rfl, rfl, rfl, update_api_usage_violations _ _ _,
    update_api_usage_spam_logs _ _ _, rfl, ?_⟩
  rw [htoday]
  exact get_update_api_usage db today (rl.count + 1)

theorem C10_dry_run_spam_witness :
    ((check_message (9 : Rat) (.ok 10 "r")).1 = true) ∧
    (handle_message ⟨true, true, [], [], 9⟩ ⟨10, 3, 0, true⟩ ⟨[], [], []⟩ 3 100
        ⟨some "spam text", 7, "bob", 1⟩ (.ok 10 "r")
        ⟨none, none, none, none, none, none⟩).punished = false ∧
    (handle_message ⟨true, true, [], [], 9⟩ ⟨10, 3, 0, true⟩ ⟨[], [], []⟩ 3 100
        ⟨some "spam text", 7, "bob", 1⟩ (.ok 10 "r")
        ⟨none, none, none, none, none, none⟩).rl.count = 0 + 1 :=
  ⟨by decide,
   (C10_dry_run_spam ⟨true, true, [], [], 9⟩ ⟨10, 3, 0, true⟩ ⟨[], [], []⟩ 3 100
      ⟨some "spam text", 7, "bob", 1⟩ "spam text" (.ok 10 "r")
      ⟨none, none, none, none, none, none⟩ rfl rfl (by decide) (by decide) rfl rfl
      (by decide) (by decide)).2.2.1,
   (C10_dry_run_spam ⟨true, true, [], [], 9⟩ ⟨10, 3, 0, true⟩ ⟨[], [], []⟩ 3 100
      ⟨some "spam text", 7, "bob", 1⟩ "spam text" (.ok 10 "r")
      ⟨none, none, none, none, none, none⟩ rfl rfl (by decide) (by decide) rfl rfl
      (by decide) (by decide)).2.2.2.2.2.1⟩

end AntiSpam
